import Mathlib

/-!
Verification of the scrape-orchestration and caching engine in `server.js`
(route handler `GET /api/album/:model/:index`).

The pure data transformations (`removeDuplicateImages`, the `CatalogEntry`
numbering step, `parseInt`-based index validation) are embedded directly.
The effectful pipeline (browser launch, search navigation, gallery link
extraction, pagination, retry loop, cache read/write) is embedded as
explicit state passing over an abstract per-attempt environment that
records what the remote site / browser would have produced; browser
session lifecycle is tracked as an explicit event trace.
-/

namespace ImageScraper

/-- One scraped asset as produced inside `page.evaluate` during gallery
collection: `{ url, thumb }` (server.js lines 256-306). -/
structure AssetRecord where
  url : String
  thumb : String
  deriving DecidableEq, Repr

/-- One persisted catalog entry `{ id, name, url, thumb }` as built by the
`uniqueImageData.map` numbering step (server.js lines 351-356). -/
structure CatalogEntry where
  id : Nat
  name : String
  url : String
  thumb : String
  deriving DecidableEq, Repr

/-- JS `s.split(c)[0]` for a single-character separator: the prefix of `s`
before the first occurrence of `c` (computed on the character list). -/
def splitFirst (c : Char) (cs : List Char) : List Char :=
  cs.takeWhile (· ≠ c)

/-- JS `s.split(c)` for a single-character separator. -/
def splitOnChar (c : Char) : List Char → List (List Char)
  | [] => [[]]
  | x :: xs =>
    if x = c then [] :: splitOnChar c xs
    else
      match splitOnChar c xs with
      | [] => [[x]]
      | h :: t => (x :: h) :: t

/-- `image.url.split('?')[0].split('#')[0]` (server.js lines 42-43). -/
def normalizeUrl (s : String) : List Char :=
  splitFirst '#' (splitFirst '?' s.toList)

/-- The dedup key `` `${normalizedUrl}|${normalizedThumb}` `` (server.js
line 46). -/
def dedupeKey (r : AssetRecord) : List Char :=
  normalizeUrl r.url ++ '|' :: normalizeUrl r.thumb

/-- The loop body of `removeDuplicateImages`, with the `seen` set made
explicit (server.js lines 40-52). -/
def removeDuplicateImagesAux : List (List Char) → List AssetRecord → List AssetRecord
  | _, [] => []
  | seen, r :: rest =>
    let key := dedupeKey r
    if key ∈ seen then removeDuplicateImagesAux seen rest
    else r :: removeDuplicateImagesAux (key :: seen) rest

/-- `removeDuplicateImages(images)` (server.js lines 36-56): keep the first
record for each dedup key, in input order. -/
def removeDuplicateImages (images : List AssetRecord) : List AssetRecord :=
  removeDuplicateImagesAux [] images

/-- JS `url.split('.').pop().split('?')[0] || 'jpg'` (server.js line 353):
file extension used when synthesizing a catalog entry name. -/
def getExtension (url : String) : String :=
  let e := splitFirst '?' ((splitOnChar '.' url.toList).getLastD [])
  if e = [] then "jpg" else String.mk e

/-- The `uniqueImageData.map((data, idx) => ({id: idx+1, ...}))` numbering
step (server.js lines 351-356). -/
def formatImages (uniq : List AssetRecord) : List CatalogEntry :=
  uniq.enum.map fun p =>
    { id := p.1 + 1
      name := String.mk
        ("image_".toList ++ Nat.toDigits 10 (p.1 + 1) ++ '.' :: (getExtension p.2.url).toList)
      url := p.2.url
      thumb := p.2.thumb }

/-- Digits at the head of a character list, as consumed by JS `parseInt`. -/
def leadingDigits (cs : List Char) : List Char :=
  cs.takeWhile (·.isDigit)

/-- Value of a (nonempty) leading-digit run; `none` when no digit leads. -/
def leadingDigitsVal (cs : List Char) : Option Nat :=
  match leadingDigits cs with
  | [] => none
  | ds => some (ds.foldl (fun acc c => acc * 10 + (c.toNat - '0'.toNat)) 0)

/-- JS `parseInt(s, 10)` (server.js line 206): skip leading whitespace,
optional sign, then the longest run of decimal digits; `none` models NaN. -/
def parseIntBase10 (s : String) : Option Int :=
  match (s.toList).dropWhile Char.isWhitespace with
  | '-' :: rest => (leadingDigitsVal rest).map (fun n => -(n : Int))
  | '+' :: rest => (leadingDigitsVal rest).map (fun n => (n : Int))
  | cs => (leadingDigitsVal cs).map (fun n => (n : Int))

example : parseIntBase10 "2abc" = some 2 := by decide
example : parseIntBase10 "99" = some 99 := by decide
example : parseIntBase10 "abc" = none := by decide
example : parseIntBase10 "-3" = some (-3) := by decide
example : parseIntBase10 "" = none := by decide
example : getExtension "a.jpg" = "jpg" := by decide
example : getExtension "a.jpg?x=1" = "jpg" := by decide
example : getExtension "noext" = "noext" := by decide
example :
    removeDuplicateImages [⟨"a.jpg?x", "a.jpg"⟩, ⟨"a.jpg", "a.jpg#f"⟩, ⟨"b.jpg", "b.jpg"⟩]
      = [⟨"a.jpg?x", "a.jpg"⟩, ⟨"b.jpg", "b.jpg"⟩] := by decide

/-! ### Pagination (server.js lines 214-315)

The gallery pagination loop drives `page.goto` over pages `1..maxPages`.
What the remote site does on each page is abstracted as a `NavOutcome`:
`ok imgs` means the navigation returned a non-404 response and the
in-page extraction (lines 256-306) produced `imgs`; `notFound` means a
null response or 404 status (line 225); `navError` means `page.goto`
itself threw (timeout / network failure). -/

/-- Outcome of navigating to one gallery page. -/
inductive NavOutcome where
  | ok (imgs : List AssetRecord)
  | notFound
  | navError
  deriving DecidableEq, Repr

/-- State accumulated by the pagination loop: the images pushed into
`imageData`, the page numbers for which a `page.goto` was performed, and
whether a navigation error escaped the loop. -/
structure PagerState where
  images : List AssetRecord
  attempted : List Nat
  threw : Bool
  deriving DecidableEq, Repr

/-- The `for (let pageNum = 1; pageNum <= maxPages; pageNum++)` loop
(server.js lines 216-315), fuel = remaining iterations. A `notFound`
response breaks the loop (line 227); a thrown navigation error escapes it
(`threw := true`); an `ok` page appends its images and continues. -/
def collectGalleryFuel (nav : Nat → NavOutcome) : Nat → Nat → PagerState → PagerState
  | 0, _, st => st
  | fuel + 1, pageNum, st =>
    match nav pageNum with
    | .notFound => { st with attempted := st.attempted ++ [pageNum] }
    | .navError => { st with attempted := st.attempted ++ [pageNum], threw := true }
    | .ok imgs =>
      collectGalleryFuel nav fuel (pageNum + 1)
        { st with images := st.images ++ imgs, attempted := st.attempted ++ [pageNum] }

/-- Full pagination pass over pages `1..maxPages` (`maxPages = 5` at the
call site, server.js line 214). -/
def collectGallery (nav : Nat → NavOutcome) (maxPages : Nat) : PagerState :=
  collectGalleryFuel nav maxPages 1 ⟨[], [], false⟩

/-- Images a page contributes when it loads successfully, `[]` otherwise. -/
def okImages (nav : Nat → NavOutcome) (pageNum : Nat) : List AssetRecord :=
  match nav pageNum with
  | .ok imgs => imgs
  | _ => []

/-! ### One scraping attempt (server.js lines 100-328)

An attempt launches a browser, navigates to the search page, extracts
gallery links, validates the index, then runs the pagination loop; its
`try` block closes the browser on the success path (line 317) and its
`catch` closes any still-open browser (lines 321-324). The environment
abstracts what the machine and the remote site do. -/

/-- Outcome of the search-page phase: `ok links` means the page loaded
with a usable status and the in-page link extraction (lines 167-199)
produced `links`; `notFound` means a null response or 404 status (which
the code turns into a throw, lines 139-141); `navError` means `page.goto`
threw. -/
inductive SearchOutcome where
  | ok (links : List String)
  | notFound
  | navError
  deriving Repr

/-- Abstract environment for one attempt: whether the browser launch
succeeds, what the search page yields, and what each gallery page
yields. -/
structure AttemptEnv where
  launchOk : Bool
  search : SearchOutcome
  pages : Nat → NavOutcome

/-- Classification of the error thrown out of an attempt's `try` block. -/
inductive AttemptError where
  | launchFailed
  | searchFailed
  | noGalleryLinks
  | invalidIndex
  | pageNavFailed
  deriving DecidableEq, Repr

/-- Browser session lifecycle events; sessions are numbered in launch
order. -/
inductive BEvent where
  | launch (id : Nat)
  | closed (id : Nat)
  deriving DecidableEq, Repr

/-- State at the moment the attempt's `try` block exits (normally or by
throw): images pushed to `imageData`, the value assigned to
`galleryLinks` (if reached), the selected gallery link, the error thrown
(if any), the browser events so far, the `browser` variable's value when
control leaves the `try` block, and the next fresh session id. -/
structure BodyResult where
  newImages : List AssetRecord
  links : Option (List String)
  selectedLink : Option String
  error : Option AttemptError
  events : List BEvent
  browserVar : Option Nat
  nextId : Nat
  deriving Repr

/-- The `try` block of one attempt (server.js lines 100-318): launch,
search navigation, link extraction (zero links throws, line 203), index
parse + validation (line 206-209), pagination, then
`await browser.close(); browser = null` (lines 317-318) on the normal
path. On every throw after a successful launch the `browser` variable is
still set when control leaves the block. -/
def attemptBody (env : AttemptEnv) (index : String) (nextId : Nat) : BodyResult :=
  if env.launchOk = false then
    ⟨[], none, none, some .launchFailed, [], none, nextId⟩
  else
    match env.search with
    | .navError => ⟨[], none, none, some .searchFailed, [.launch nextId], some nextId, nextId + 1⟩
    | .notFound => ⟨[], none, none, some .searchFailed, [.launch nextId], some nextId, nextId + 1⟩
    | .ok links =>
      if links.length = 0 then
        ⟨[], some links, none, some .noGalleryLinks, [.launch nextId], some nextId, nextId + 1⟩
      else
        match parseIntBase10 index with
        | none =>
          ⟨[], some links, none, some .invalidIndex, [.launch nextId], some nextId, nextId + 1⟩
        | some n =>
          if n < 1 ∨ n > (links.length : Int) then
            ⟨[], some links, none, some .invalidIndex, [.launch nextId], some nextId, nextId + 1⟩
          else
            if (collectGallery env.pages 5).threw then
              ⟨(collectGallery env.pages 5).images, some links, links.get? (n - 1).toNat,
                some .pageNavFailed, [.launch nextId], some nextId, nextId + 1⟩
            else
              ⟨(collectGallery env.pages 5).images, some links, links.get? (n - 1).toNat,
                none, [.launch nextId, .closed nextId], none, nextId + 1⟩

/-- State after the attempt's `catch` clause has run (server.js lines
319-328): on an error, a still-open browser is closed and the variable
nulled; the error is retained for the `attempts === maxAttempts` rethrow
decision. -/
structure AttemptResult where
  newImages : List AssetRecord
  links : Option (List String)
  selectedLink : Option String
  error : Option AttemptError
  events : List BEvent
  browserVar : Option Nat
  nextId : Nat
  deriving Repr

/-- The `catch` clause of one attempt (server.js lines 319-324):
`if (browser) { await browser.close(); browser = null; }`. -/
def attemptCatch (b : BodyResult) : AttemptResult :=
  match b.error with
  | none => ⟨b.newImages, b.links, b.selectedLink, none, b.events, b.browserVar, b.nextId⟩
  | some e =>
    match b.browserVar with
    | some id =>
      ⟨b.newImages, b.links, b.selectedLink, some e, b.events ++ [.closed id], none, b.nextId⟩
    | none => ⟨b.newImages, b.links, b.selectedLink, some e, b.events, none, b.nextId⟩

/-- One full attempt: `try` block then `catch` clause. -/
def runAttempt (env : AttemptEnv) (index : String) (nextId : Nat) : AttemptResult :=
  attemptCatch (attemptBody env index nextId)

/-! ### The retry loop and the request handler (server.js lines 61-382) -/

/-- State threaded through the `while` retry loop: the accumulated
`imageData` and `galleryLinks` variables (both declared outside the loop,
lines 91-92), the browser event trace, and the next fresh session id. -/
structure LoopState where
  imageData : List AssetRecord
  galleryLinks : List String
  events : List BEvent
  nextId : Nat
  deriving DecidableEq, Repr

/-- How the retry loop ends: `finished` when the `while` condition fails,
`thrown` when the final attempt's error is rethrown (server.js lines
325-327); `browserVar` is the `browser` variable's value at the rethrow. -/
inductive LoopResult where
  | finished (st : LoopState)
  | thrown (st : LoopState) (browserVar : Option Nat)
  deriving DecidableEq, Repr

/-- State update performed by one loop iteration (server.js lines
98-328): the attempt's page images are pushed onto `imageData`, reached
assignments to `galleryLinks` persist, the browser events accumulate, and
the session counter advances. -/
def nextLoopState (env : Nat → AttemptEnv) (index : String) (attemptsMade : Nat)
    (st : LoopState) : LoopState :=
  ⟨st.imageData ++ (runAttempt (env attemptsMade) index st.nextId).newImages,
    ((runAttempt (env attemptsMade) index st.nextId).links).getD st.galleryLinks,
    st.events ++ (runAttempt (env attemptsMade) index st.nextId).events,
    (runAttempt (env attemptsMade) index st.nextId).nextId⟩

/-- The `while (attempts < maxAttempts && imageData.length === 0)` loop
(server.js lines 97-329); `fuel = maxAttempts - attempts`. Each iteration
runs one attempt; a caught error is rethrown when this was the final
attempt, otherwise the loop re-checks its condition. -/
def scrapeLoopFuel (env : Nat → AttemptEnv) (index : String) :
    Nat → Nat → LoopState → LoopResult
  | 0, _, st => .finished st
  | fuel + 1, attemptsMade, st =>
    if st.imageData.length = 0 then
      match (runAttempt (env attemptsMade) index st.nextId).error with
      | none =>
        scrapeLoopFuel env index fuel (attemptsMade + 1) (nextLoopState env index attemptsMade st)
      | some _ =>
        if fuel = 0 then
          .thrown (nextLoopState env index attemptsMade st)
            (runAttempt (env attemptsMade) index st.nextId).browserVar
        else
          scrapeLoopFuel env index fuel (attemptsMade + 1) (nextLoopState env index attemptsMade st)
    else .finished st

/-- Responses the route handler can produce for one request. -/
inductive Response where
  | cacheHit (album : List CatalogEntry)
  | success (album : List CatalogEntry)
  | notFound
  | serverError
  deriving DecidableEq, Repr

/-- Observable outcome of one request: the HTTP response, the cache
content for `(term, index)` afterwards (`none` = no file), and the
browser event trace. -/
structure RequestResult where
  response : Response
  cache : Option (List CatalogEntry)
  events : List BEvent
  deriving DecidableEq, Repr

/-- The cache check (server.js lines 70-89): a readable cache file whose
parsed list is non-empty is served; an empty list falls through (and the
file is deleted, line 86); a missing/unreadable file falls through. -/
def cacheHitEntries : Option (List CatalogEntry) → Option (List CatalogEntry)
  | some l => if l.length > 0 then some l else none
  | none => none

/-- Everything after a cache miss (server.js lines 91-381): the retry
loop with `maxAttempts = 2`, then deduplication; an empty deduplicated
list writes `[]` to the cache file and answers 404 (lines 334-348), a
non-empty one is numbered, written to the cache file, and answered 200
(lines 350-370); a rethrown final-attempt error reaches the outer `catch`
(lines 371-381), which closes any open browser and answers 500 with no
cache write. -/
def scrapeAndRespond (env : Nat → AttemptEnv) (index : String) : RequestResult :=
  match scrapeLoopFuel env index 2 0 ⟨[], [], [], 0⟩ with
  | .thrown st bvar =>
    ⟨.serverError, none,
      st.events ++ (match bvar with | some id => [.closed id] | none => [])⟩
  | .finished st =>
    if (removeDuplicateImages st.imageData).length = 0 then
      ⟨.notFound, some [], st.events⟩
    else
      ⟨.success (formatImages (removeDuplicateImages st.imageData)),
        some (formatImages (removeDuplicateImages st.imageData)), st.events⟩

/-- The whole route handler for one request, given the prior cache
content for `(term, index)` (server.js lines 61-382). -/
def handleRequest (cache0 : Option (List CatalogEntry)) (env : Nat → AttemptEnv)
    (index : String) : RequestResult :=
  match cacheHitEntries cache0 with
  | some l => ⟨.cacheHit l, some l, []⟩
  | none => scrapeAndRespond env index

/-! Concrete sanity checks of the model. -/

/-- An attempt environment in which everything succeeds and gallery page 1
yields one image. -/
def envGoodOne : Nat → AttemptEnv := fun _ =>
  { launchOk := true
    search := .ok ["https://ahottie.net/albums/a"]
    pages := fun p => if p = 1 then .ok [⟨"a.jpg", "a.jpg"⟩] else .notFound }

example :
    handleRequest none envGoodOne "1" =
      ⟨.success [⟨1, "image_1.jpg", "a.jpg", "a.jpg"⟩],
        some [⟨1, "image_1.jpg", "a.jpg", "a.jpg"⟩],
        [.launch 0, .closed 0]⟩ := by decide

/-- An environment in which every attempt finds zero gallery links, so
every attempt throws. -/
def envNoLinks : Nat → AttemptEnv := fun _ =>
  { launchOk := true, search := .ok [], pages := fun _ => .notFound }

example : (handleRequest none envNoLinks "1").response = .serverError := by decide

/-- An environment in which attempts complete normally but collect zero
images (page 1 of the gallery is already a 404). -/
def envNoImages : Nat → AttemptEnv := fun _ =>
  { launchOk := true
    search := .ok ["https://ahottie.net/albums/a"]
    pages := fun _ => .notFound }

example :
    handleRequest none envNoImages "1" =
      ⟨.notFound, some [], [.launch 0, .closed 0, .launch 1, .closed 1]⟩ := by decide

/-! ### Deduplication lemmas -/

theorem removeDuplicateImagesAux_sublist (seen : List (List Char)) (x : List AssetRecord) :
    (removeDuplicateImagesAux seen x).Sublist x := by
  induction x generalizing seen with
  | nil => simp [removeDuplicateImagesAux]
  | cons r rest ih =>
    unfold removeDuplicateImagesAux
    by_cases h : dedupeKey r ∈ seen
    · simp only [h, if_pos, if_true]
      exact (ih seen).cons r
    · simp only [h, if_neg, if_false, ite_false]
      exact (ih (dedupeKey r :: seen)).cons₂ r

theorem removeDuplicateImagesAux_key_not_mem_seen (seen : List (List Char))
    (x : List AssetRecord) :
    ∀ r ∈ removeDuplicateImagesAux seen x, dedupeKey r ∉ seen := by
  induction x generalizing seen with
  | nil => simp [removeDuplicateImagesAux]
  | cons a rest ih =>
    intro r hr
    unfold removeDuplicateImagesAux at hr
    by_cases h : dedupeKey a ∈ seen
    · simp only [h, if_true] at hr
      exact ih seen r hr
    · simp only [h, if_false, ite_false] at hr
      rcases List.mem_cons.mp hr with rfl | hr'
      · exact h
      · have := ih (dedupeKey a :: seen) r hr'
        exact fun hc => this (List.mem_cons_of_mem _ hc)

theorem removeDuplicateImagesAux_keys_nodup (seen : List (List Char))
    (x : List AssetRecord) :
    ((removeDuplicateImagesAux seen x).map dedupeKey).Nodup := by
  induction x generalizing seen with
  | nil => simp [removeDuplicateImagesAux]
  | cons a rest ih =>
    unfold removeDuplicateImagesAux
    by_cases h : dedupeKey a ∈ seen
    · simp only [h, if_true]
      exact ih seen
    · simp only [h, if_false, ite_false, List.map_cons, List.nodup_cons]
      refine ⟨?_, ih (dedupeKey a :: seen)⟩
      intro hc
      rcases List.mem_map.mp hc with ⟨r, hr, hkey⟩
      have := removeDuplicateImagesAux_key_not_mem_seen (dedupeKey a :: seen) rest r hr
      exact this (hkey ▸ List.mem_cons_self _ _)

theorem removeDuplicateImagesAux_of_fresh (seen : List (List Char)) (x : List AssetRecord)
    (hx : (x.map dedupeKey).Nodup) (hdisj : ∀ r ∈ x, dedupeKey r ∉ seen) :
    removeDuplicateImagesAux seen x = x := by
  induction x generalizing seen with
  | nil => simp [removeDuplicateImagesAux]
  | cons a rest ih =>
    unfold removeDuplicateImagesAux
    have ha : dedupeKey a ∉ seen := hdisj a (List.mem_cons_self _ _)
    simp only [ha, if_false, ite_false]
    congr 1
    rw [List.map_cons, List.nodup_cons] at hx
    refine ih (dedupeKey a :: seen) hx.2 ?_
    intro r hr hc
    rcases List.mem_cons.mp hc with hik | hik
    · exact hx.1 (hik ▸ List.mem_map_of_mem dedupeKey hr)
    · exact hdisj r (List.mem_cons_of_mem _ hr) hik

theorem removeDuplicateImagesAux_find_first (seen : List (List Char))
    (x : List AssetRecord) :
    ∀ r ∈ removeDuplicateImagesAux seen x,
      x.find? (fun s => dedupeKey s == dedupeKey r) = some r := by
  induction x generalizing seen with
  | nil => simp [removeDuplicateImagesAux]
  | cons a rest ih =>
    intro r hr
    unfold removeDuplicateImagesAux at hr
    by_cases h : dedupeKey a ∈ seen
    · simp only [h, if_true] at hr
      have hfind := ih seen r hr
      have hne : dedupeKey a ≠ dedupeKey r := by
        intro he
        exact removeDuplicateImagesAux_key_not_mem_seen seen rest r hr (he ▸ h)
      simp [List.find?_cons, hne, hfind]
    · simp only [h, if_false, ite_false] at hr
      rcases List.mem_cons.mp hr with rfl | hr'
      · simp [List.find?_cons]
      · have hfind := ih (dedupeKey a :: seen) r hr'
        have hr_not := removeDuplicateImagesAux_key_not_mem_seen
          (dedupeKey a :: seen) rest r hr'
        have hne : dedupeKey a ≠ dedupeKey r := by
          intro he
          exact hr_not (he ▸ List.mem_cons_self _ _)
        simp [List.find?_cons, hne, hfind]

/-- C6: `removeDuplicateImages` is idempotent, never lengthens its input,
and its output is the subsequence of the input consisting of the first
record bearing each normalized key (query-string- and fragment-stripped
`url` joined with the stripped `thumb`), in first-occurrence order. -/
theorem dedupe_props (x : List AssetRecord) :
    removeDuplicateImages (removeDuplicateImages x) = removeDuplicateImages x ∧
    (removeDuplicateImages x).length ≤ x.length ∧
    (removeDuplicateImages x).Sublist x ∧
    ((removeDuplicateImages x).map dedupeKey).Nodup ∧
    ∀ r ∈ removeDuplicateImages x,
      x.find? (fun s => dedupeKey s == dedupeKey r) = some r := by
  refine ⟨?_, ?_, ?_, ?_, ?_⟩
  · exact removeDuplicateImagesAux_of_fresh [] _
      (removeDuplicateImagesAux_keys_nodup [] x) (by simp)
  · exact (removeDuplicateImagesAux_sublist [] x).length_le
  · exact removeDuplicateImagesAux_sublist [] x
  · exact removeDuplicateImagesAux_keys_nodup [] x
  · exact removeDuplicateImagesAux_find_first [] x

/-- Witness for C6: the second record of a concrete list shares its
normalized key with the first, so the first survives and is located by a
first-occurrence search. -/
theorem dedupe_props_witness :
    List.find?
        (fun s => dedupeKey s == dedupeKey (⟨"a.jpg?x", "a.jpg"⟩ : AssetRecord))
        [⟨"a.jpg?x", "a.jpg"⟩, ⟨"a.jpg", "a.jpg#f"⟩, ⟨"b.jpg", "b.jpg"⟩]
      = some ⟨"a.jpg?x", "a.jpg"⟩ :=
  (dedupe_props [⟨"a.jpg?x", "a.jpg"⟩, ⟨"a.jpg", "a.jpg#f"⟩, ⟨"b.jpg", "b.jpg"⟩]).2.2.2.2
    ⟨"a.jpg?x", "a.jpg"⟩ (by decide)

/-! ### Numbering lemmas -/

theorem formatImages_length (l : List AssetRecord) :
    (formatImages l).length = l.length := by
  simp [formatImages, List.enum_length]

/-- C7: the numbering step assigns `id` values exactly `1..k` (with
`k` the number of deduplicated records), in discovery order, and on every
request-handler run that answers success the returned album's ids are
exactly `1..total`. -/
theorem catalog_ids_dense :
    (∀ l : List AssetRecord,
      (formatImages l).map CatalogEntry.id = (List.range l.length).map (· + 1) ∧
      (formatImages l).map CatalogEntry.url = l.map AssetRecord.url ∧
      (formatImages l).map CatalogEntry.thumb = l.map AssetRecord.thumb) ∧
    ∀ (cache0 : Option (List CatalogEntry)) (env : Nat → AttemptEnv) (index : String)
      (images : List CatalogEntry),
      (handleRequest cache0 env index).response = .success images →
      images.map CatalogEntry.id = (List.range images.length).map (· + 1) := by
  have hids : ∀ l : List AssetRecord,
      (formatImages l).map CatalogEntry.id = (List.range l.length).map (· + 1) := by
    intro l
    have h1 : (formatImages l).map CatalogEntry.id
        = l.enum.map (fun p : Nat × AssetRecord => p.1 + 1) := by
      simp only [formatImages, List.map_map]
      rfl
    have h2 : l.enum.map (fun p : Nat × AssetRecord => p.1 + 1)
        = (l.enum.map Prod.fst).map (· + 1) := by
      rw [List.map_map]
      rfl
    rw [h1, h2, List.enum_map_fst]
  refine ⟨?_, ?_⟩
  · intro l
    refine ⟨hids l, ?_, ?_⟩
    · have h2 : (formatImages l).map CatalogEntry.url
          = l.enum.map (fun p : Nat × AssetRecord => p.2.url) := by
        simp only [formatImages, List.map_map]
        rfl
      have h3 : l.enum.map (fun p : Nat × AssetRecord => p.2.url)
          = (l.enum.map Prod.snd).map AssetRecord.url := by
        rw [List.map_map]
        rfl
      rw [h2, h3, List.enum_map_snd]
    · have h2 : (formatImages l).map CatalogEntry.thumb
          = l.enum.map (fun p : Nat × AssetRecord => p.2.thumb) := by
        simp only [formatImages, List.map_map]
        rfl
      have h3 : l.enum.map (fun p : Nat × AssetRecord => p.2.thumb)
          = (l.enum.map Prod.snd).map AssetRecord.thumb := by
        rw [List.map_map]
        rfl
      rw [h2, h3, List.enum_map_snd]
  · intro cache0 env index images hresp
    unfold handleRequest at hresp
    cases hcache : cacheHitEntries cache0 with
    | some l =>
      rw [hcache] at hresp
      simp at hresp
    | none =>
      rw [hcache] at hresp
      unfold scrapeAndRespond at hresp
      cases hloop : scrapeLoopFuel env index 2 0 ⟨[], [], [], 0⟩ with
      | thrown st bvar =>
        rw [hloop] at hresp
        simp at hresp
      | finished st =>
        rw [hloop] at hresp
        dsimp only at hresp
        by_cases hlen : (removeDuplicateImages st.imageData).length = 0
        · rw [if_pos hlen] at hresp
          simp at hresp
        · rw [if_neg hlen] at hresp
          simp only [Response.success.injEq] at hresp
          subst hresp
          rw [formatImages_length]
          exact hids _

/-- Witness for C7: a concrete successful scrape produces an album whose
ids are exactly `1..1`. -/
theorem catalog_ids_dense_witness :
    ([⟨1, "image_1.jpg", "a.jpg", "a.jpg"⟩] : List CatalogEntry).map CatalogEntry.id
      = (List.range 1).map (· + 1) :=
  catalog_ids_dense.2 none envGoodOne "1" [⟨1, "image_1.jpg", "a.jpg", "a.jpg"⟩]
    (by decide)

/-! ### Cache behavior -/

/-- C1: a cache file holding a non-empty entry list is served back
verbatim with source `cache`, the cache is left untouched, and no browser
event (launch, navigation, scraping) occurs. -/
theorem cache_hit_served (l : List CatalogEntry) (env : Nat → AttemptEnv)
    (index : String) (h : l ≠ []) :
    handleRequest (some l) env index = ⟨.cacheHit l, some l, []⟩ := by
  unfold handleRequest cacheHitEntries
  have hpos : l.length > 0 := List.length_pos.mpr h
  simp [hpos]

/-- Witness for C1 at a concrete cached album and environment. -/
theorem cache_hit_served_witness :
    handleRequest (some [⟨1, "image_1.jpg", "a.jpg", "a.jpg"⟩]) envGoodOne "9" =
      ⟨.cacheHit [⟨1, "image_1.jpg", "a.jpg", "a.jpg"⟩],
        some [⟨1, "image_1.jpg", "a.jpg", "a.jpg"⟩], []⟩ :=
  cache_hit_served [⟨1, "image_1.jpg", "a.jpg", "a.jpg"⟩] envGoodOne "9" (by decide)

/-! ### Pagination lemmas -/

/-- Images contributed by the block of pages `start, start+1, ...,
start+n-1`, in page order. -/
def pagesImages (nav : Nat → NavOutcome) (start n : Nat) : List AssetRecord :=
  ((List.range' start n).map (okImages nav)).flatten

theorem collectGalleryFuel_attempted_length (nav : Nat → NavOutcome)
    (fuel pageNum : Nat) (st : PagerState) :
    (collectGalleryFuel nav fuel pageNum st).attempted.length
      ≤ st.attempted.length + fuel := by
  induction fuel generalizing pageNum st with
  | zero => simp [collectGalleryFuel]
  | succ fuel ih =>
    unfold collectGalleryFuel
    cases nav pageNum with
    | notFound => simp
    | navError => simp
    | ok imgs =>
      have := ih (pageNum + 1)
        { st with images := st.images ++ imgs, attempted := st.attempted ++ [pageNum] }
      simp only [List.length_append, List.length_cons, List.length_nil] at this ⊢
      omega

theorem collectGalleryFuel_mem_attempted (nav : Nat → NavOutcome)
    (fuel pageNum : Nat) (st : PagerState) (p : Nat)
    (hp : p ∈ (collectGalleryFuel nav fuel pageNum st).attempted) :
    p ∈ st.attempted ∨
      (pageNum ≤ p ∧ p < pageNum + fuel ∧
        ∀ q, pageNum ≤ q → q < p → ∃ l, nav q = .ok l) := by
  induction fuel generalizing pageNum st with
  | zero =>
    simp only [collectGalleryFuel] at hp
    exact Or.inl hp
  | succ fuel ih =>
    unfold collectGalleryFuel at hp
    cases hnav : nav pageNum with
    | notFound =>
      rw [hnav] at hp
      simp only [List.mem_append, List.mem_singleton] at hp
      rcases hp with hp | rfl
      · exact Or.inl hp
      · exact Or.inr ⟨Nat.le_refl _, by omega, fun q hq1 hq2 => absurd hq2 (by omega)⟩
    | navError =>
      rw [hnav] at hp
      simp only [List.mem_append, List.mem_singleton] at hp
      rcases hp with hp | rfl
      · exact Or.inl hp
      · exact Or.inr ⟨Nat.le_refl _, by omega, fun q hq1 hq2 => absurd hq2 (by omega)⟩
    | ok imgs =>
      rw [hnav] at hp
      rcases ih (pageNum + 1)
          { st with images := st.images ++ imgs, attempted := st.attempted ++ [pageNum] }
          hp with hmem | ⟨h1, h2, h3⟩
      · simp only [List.mem_append, List.mem_singleton] at hmem
        rcases hmem with hmem | rfl
        · exact Or.inl hmem
        · exact Or.inr ⟨Nat.le_refl _, by omega, fun q hq1 hq2 => absurd hq2 (by omega)⟩
      · refine Or.inr ⟨by omega, by omega, fun q hq1 hq2 => ?_⟩
        rcases Nat.eq_or_lt_of_le hq1 with rfl | hq1'
        · exact ⟨imgs, hnav⟩
        · exact h3 q hq1' hq2

theorem collectGalleryFuel_run_to_notFound (nav : Nat → NavOutcome)
    (fuel pageNum p : Nat) (st : PagerState)
    (hok : ∀ q, pageNum ≤ q → q < p → ∃ l, nav q = .ok l)
    (hlo : pageNum ≤ p) (hhi : p < pageNum + fuel) (hstop : nav p = .notFound) :
    collectGalleryFuel nav fuel pageNum st =
      ⟨st.images ++ pagesImages nav pageNum (p - pageNum),
        st.attempted ++ List.range' pageNum (p - pageNum + 1), st.threw⟩ := by
  induction fuel generalizing pageNum st with
  | zero => omega
  | succ fuel ih =>
    rcases Nat.eq_or_lt_of_le hlo with rfl | hlt
    · unfold collectGalleryFuel
      rw [hstop]
      simp [pagesImages]
    · obtain ⟨l, hl⟩ := hok pageNum (Nat.le_refl _) hlt
      unfold collectGalleryFuel
      rw [hl]
      dsimp only
      rw [ih (pageNum + 1)
        { st with images := st.images ++ l, attempted := st.attempted ++ [pageNum] }
        (fun q hq1 hq2 => hok q (by omega) hq2) (by omega) (by omega)]
      have hrw : p - pageNum = (p - (pageNum + 1)) + 1 := by omega
      dsimp only
      simp only [PagerState.mk.injEq]
      refine ⟨?_, ?_, trivial⟩
      · rw [hrw]
        rw [pagesImages, pagesImages, List.range'_succ, List.map_cons, List.flatten_cons]
        have hok1 : okImages nav pageNum = l := by simp [okImages, hl]
        rw [hok1, List.append_assoc]
      · rw [hrw]
        rw [List.range'_succ pageNum (p - (pageNum + 1) + 1) 1, List.append_assoc]
        rfl

theorem collectGalleryFuel_run_to_navError (nav : Nat → NavOutcome)
    (fuel pageNum p : Nat) (st : PagerState)
    (hok : ∀ q, pageNum ≤ q → q < p → ∃ l, nav q = .ok l)
    (hlo : pageNum ≤ p) (hhi : p < pageNum + fuel) (hstop : nav p = .navError) :
    collectGalleryFuel nav fuel pageNum st =
      ⟨st.images ++ pagesImages nav pageNum (p - pageNum),
        st.attempted ++ List.range' pageNum (p - pageNum + 1), true⟩ := by
  induction fuel generalizing pageNum st with
  | zero => omega
  | succ fuel ih =>
    rcases Nat.eq_or_lt_of_le hlo with rfl | hlt
    · unfold collectGalleryFuel
      rw [hstop]
      simp [pagesImages]
    · obtain ⟨l, hl⟩ := hok pageNum (Nat.le_refl _) hlt
      unfold collectGalleryFuel
      rw [hl]
      dsimp only
      rw [ih (pageNum + 1)
        { st with images := st.images ++ l, attempted := st.attempted ++ [pageNum] }
        (fun q hq1 hq2 => hok q (by omega) hq2) (by omega) (by omega)]
      have hrw : p - pageNum = (p - (pageNum + 1)) + 1 := by omega
      dsimp only
      simp only [PagerState.mk.injEq]
      refine ⟨?_, ?_, trivial⟩
      · rw [hrw]
        rw [pagesImages, pagesImages, List.range'_succ, List.map_cons, List.flatten_cons]
        have hok1 : okImages nav pageNum = l := by simp [okImages, hl]
        rw [hok1, List.append_assoc]
      · rw [hrw]
        rw [List.range'_succ pageNum (p - (pageNum + 1) + 1) 1, List.append_assoc]
        rfl

/-- C9: pagination performs at most `maxPages = 5` page loads, and a
not-found response on any page stops it there: exactly pages `1..p` were
loaded, no later page is attempted, and no error escapes the loop. -/
theorem pagination_bounded_stops_on_404 (nav : Nat → NavOutcome) :
    (collectGallery nav 5).attempted.length ≤ 5 ∧
    ∀ p, p ∈ (collectGallery nav 5).attempted → nav p = .notFound →
      (collectGallery nav 5).attempted = List.range' 1 p ∧
      (collectGallery nav 5).threw = false := by
  constructor
  · have := collectGalleryFuel_attempted_length nav 5 1 ⟨[], [], false⟩
    simpa [collectGallery] using this
  · intro p hp hnf
    rcases collectGalleryFuel_mem_attempted nav 5 1 ⟨[], [], false⟩ p hp with hmem | ⟨h1, h2, h3⟩
    · simp at hmem
    · have := collectGalleryFuel_run_to_notFound nav 5 1 p ⟨[], [], false⟩ h3 h1 h2 hnf
      unfold collectGallery
      rw [this]
      refine ⟨?_, rfl⟩
      simp only [List.nil_append]
      congr 1
      omega

/-- Witness for C9: pages 1 and 2 load, page 3 is a 404, so exactly pages
1-3 are attempted out of the 5 allowed. -/
def navThirdPage404 : Nat → NavOutcome := fun p =>
  if p < 3 then .ok [⟨"a.jpg", "a.jpg"⟩] else .notFound

theorem pagination_bounded_stops_on_404_witness :
    (collectGallery navThirdPage404 5).attempted = List.range' 1 3 ∧
    (collectGallery navThirdPage404 5).threw = false :=
  (pagination_bounded_stops_on_404 navThirdPage404).2 3 (by decide) (by decide)

/-- Counterexample to C8: page 2's navigation throws (a non-404 failure)
while page 3 would have loaded fine, yet page 3 is never attempted —
a single-page navigation failure does abort collection of the remaining
pages even when it is not the final page. -/
def navSecondPageThrows : Nat → NavOutcome := fun p =>
  if p = 2 then .navError else .ok [⟨"a.jpg", "a.jpg"⟩]

theorem page_nav_error_aborts_counterexample :
    navSecondPageThrows 2 = .navError ∧
    navSecondPageThrows 3 = .ok [⟨"a.jpg", "a.jpg"⟩] ∧
    2 ∈ (collectGallery navSecondPageThrows 5).attempted ∧
    3 ∉ (collectGallery navSecondPageThrows 5).attempted ∧
    (collectGallery navSecondPageThrows 5).threw = true := by decide

/-- C8 amended: a thrown navigation failure on page `p` aborts the
pagination loop — pages after `p` are not attempted and the error escapes
the attempt — while the assets gathered from the earlier pages `1..p-1`
are retained in the accumulated list. -/
theorem page_nav_error_aborts (nav : Nat → NavOutcome) (p : Nat)
    (hp : p ∈ (collectGallery nav 5).attempted) (he : nav p = .navError) :
    (collectGallery nav 5).threw = true ∧
    (collectGallery nav 5).attempted = List.range' 1 p ∧
    (collectGallery nav 5).images = pagesImages nav 1 (p - 1) := by
  rcases collectGalleryFuel_mem_attempted nav 5 1 ⟨[], [], false⟩ p hp with hmem | ⟨h1, h2, h3⟩
  · simp at hmem
  · have := collectGalleryFuel_run_to_navError nav 5 1 p ⟨[], [], false⟩ h3 h1 h2 he
    unfold collectGallery
    rw [this]
    refine ⟨rfl, ?_, ?_⟩
    · simp only [List.nil_append]
      congr 1
      omega
    · simp only [List.nil_append]

/-- Witness for the amended C8: with page 2 throwing, pages 1-2 are
attempted and page 1's single image is retained. -/
theorem page_nav_error_aborts_witness :
    (collectGallery navSecondPageThrows 5).threw = true ∧
    (collectGallery navSecondPageThrows 5).attempted = List.range' 1 2 ∧
    (collectGallery navSecondPageThrows 5).images
      = pagesImages navSecondPageThrows 1 1 :=
  page_nav_error_aborts navSecondPageThrows 2 (by decide) (by decide)

/-! ### Empty-cache behavior (C3) -/

/-- Counterexample to C3: with an empty list recorded in the cache, the
request does not return the cached empty-result not-found outcome without
re-scraping — it launches a browser (the event trace is non-empty) and
here even answers success from a fresh scrape. -/
theorem empty_cache_counterexample :
    (handleRequest (some []) envGoodOne "1").events ≠ [] ∧
    (handleRequest (some []) envGoodOne "1").response ≠ .notFound ∧
    (handleRequest (some []) envGoodOne "1").response
      = .success [⟨1, "image_1.jpg", "a.jpg", "a.jpg"⟩] := by decide

/-- C3 amended: a cache that records an empty list does not short-circuit
the request; the empty cache file is deleted and the request proceeds
exactly as a cache miss, performing a full re-scrape. -/
theorem empty_cache_behaves_as_miss (env : Nat → AttemptEnv) (index : String) :
    handleRequest (some []) env index = handleRequest none env index := rfl

/-! ### Exhausted-failure behavior (C2) -/

/-- Counterexample to C2: every attempt fails (zero gallery links each
time), so the retry loop ends in exhausted failure with the final attempt
throwing — but the handler answers with a server/internal error and
writes nothing to the cache, instead of recording an explicit empty list
and answering not-found. -/
theorem exhausted_throw_counterexample :
    (handleRequest none envNoLinks "1").response = .serverError ∧
    (handleRequest none envNoLinks "1").cache = none := by decide

/-- C2 amended: on a cache miss, if the retry loop completes without the
final attempt throwing and the deduplicated image list is empty, an
explicit empty list is written to the cache and a not-found outcome
(distinct from a server error) is returned; if instead the final attempt
ends by throwing, the handler reports a server/internal error and writes
nothing to the cache. -/
theorem exhausted_failure_outcomes (cache0 : Option (List CatalogEntry))
    (env : Nat → AttemptEnv) (index : String)
    (hmiss : cacheHitEntries cache0 = none) :
    (∀ st, scrapeLoopFuel env index 2 0 ⟨[], [], [], 0⟩ = .finished st →
      removeDuplicateImages st.imageData = [] →
      handleRequest cache0 env index = ⟨.notFound, some [], st.events⟩) ∧
    (∀ st bvar, scrapeLoopFuel env index 2 0 ⟨[], [], [], 0⟩ = .thrown st bvar →
      (handleRequest cache0 env index).response = .serverError ∧
      (handleRequest cache0 env index).cache = none) := by
  constructor
  · intro st hloop hempty
    unfold handleRequest
    rw [hmiss]
    unfold scrapeAndRespond
    rw [hloop]
    simp [hempty]
  · intro st bvar hloop
    unfold handleRequest
    rw [hmiss]
    unfold scrapeAndRespond
    rw [hloop]
    simp

/-- Witness for the amended C2: attempts that complete normally but find
zero images yield a 404 with an explicit empty list written to cache. -/
theorem exhausted_failure_outcomes_witness :
    handleRequest none envNoImages "1" =
      ⟨.notFound, some [], [.launch 0, .closed 0, .launch 1, .closed 1]⟩ :=
  (exhausted_failure_outcomes none envNoImages "1" rfl).1
    ⟨[], ["https://ahottie.net/albums/a"],
      [.launch 0, .closed 0, .launch 1, .closed 1], 2⟩
    (by decide) (by decide)

/-! ### Index validation (C4, C10) -/

/-- The index fails the validation at server.js lines 206-209 against a
given link list: `parseInt` yields NaN, or the value is below 1 or above
the number of links. -/
def invalidIndexFor (index : String) (links : List String) : Prop :=
  parseIntBase10 index = none ∨
    ∃ n, parseIntBase10 index = some n ∧ (n < 1 ∨ n > (links.length : Int))

/-- When the search succeeds with a non-empty link list but the requested
index fails validation, the attempt throws the invalid-index error and
the catch closes the browser. -/
theorem runAttempt_invalidIndex (env : AttemptEnv) (index : String) (nextId : Nat)
    (links : List String) (hl : env.launchOk = true) (hs : env.search = .ok links)
    (hne : links ≠ []) (hbad : invalidIndexFor index links) :
    runAttempt env index nextId =
      ⟨[], some links, none, some .invalidIndex,
        [.launch nextId, .closed nextId], none, nextId + 1⟩ := by
  have h0 : ¬ links.length = 0 := by simpa using hne
  unfold runAttempt attemptBody
  rcases hbad with hnone | ⟨n, hn, hcond⟩
  · simp [hl, hs, h0, hnone, attemptCatch]
  · simp [hl, hs, h0, hn, hcond, attemptCatch]

/-- One loop iteration when the attempt threw an error: rethrow on the
final attempt, otherwise continue. -/
theorem scrapeLoopFuel_step_err (env : Nat → AttemptEnv) (index : String)
    (fuel attemptsMade : Nat) (st : LoopState) (e : AttemptError)
    (hempty : st.imageData.length = 0)
    (herr : (runAttempt (env attemptsMade) index st.nextId).error = some e) :
    scrapeLoopFuel env index (fuel + 1) attemptsMade st =
      if fuel = 0 then
        .thrown (nextLoopState env index attemptsMade st)
          (runAttempt (env attemptsMade) index st.nextId).browserVar
      else
        scrapeLoopFuel env index fuel (attemptsMade + 1)
          (nextLoopState env index attemptsMade st) := by
  rw [scrapeLoopFuel, if_pos hempty, herr]

/-- One loop iteration when the attempt completed without throwing. -/
theorem scrapeLoopFuel_step_ok (env : Nat → AttemptEnv) (index : String)
    (fuel attemptsMade : Nat) (st : LoopState)
    (hempty : st.imageData.length = 0)
    (herr : (runAttempt (env attemptsMade) index st.nextId).error = none) :
    scrapeLoopFuel env index (fuel + 1) attemptsMade st =
      scrapeLoopFuel env index fuel (attemptsMade + 1)
        (nextLoopState env index attemptsMade st) := by
  rw [scrapeLoopFuel, if_pos hempty, herr]

/-- The loop stops as soon as `imageData` is non-empty. -/
theorem scrapeLoopFuel_step_stop (env : Nat → AttemptEnv) (index : String)
    (fuel attemptsMade : Nat) (st : LoopState)
    (hne : ¬ st.imageData.length = 0) :
    scrapeLoopFuel env index (fuel + 1) attemptsMade st = .finished st := by
  rw [scrapeLoopFuel, if_neg hne]

/-- Counterexample to C4: with 3 gallery links found on each attempt and
index `"99"`, the invalid index is NOT surfaced immediately as a distinct
client-input error: the attempt's throw is retried (two browser sessions
are launched) and the final outcome is the generic server-error response. -/
def envThreeLinks : Nat → AttemptEnv := fun _ =>
  { launchOk := true
    search := .ok ["https://ahottie.net/albums/a", "https://ahottie.net/albums/b",
      "https://ahottie.net/albums/c"]
    pages := fun _ => .notFound }

theorem invalid_index_counterexample :
    (handleRequest none envThreeLinks "99").response = .serverError ∧
    (handleRequest none envThreeLinks "99").events
      = [.launch 0, .closed 0, .launch 1, .closed 1] ∧
    (handleRequest none envThreeLinks "99").cache = none := by decide

/-- C4 amended: an invalid requested index (non-numeric, below 1, or
above the number of links found) makes the attempt throw a generic error
that IS retried like any other attempt failure; after `maxAttempts`
attempts it is surfaced as the server/internal error outcome (not a
distinct client-input error), and no cache write occurs for that
`(term, index)`. -/
theorem invalid_index_retried (cache0 : Option (List CatalogEntry))
    (env : Nat → AttemptEnv) (index : String) (links0 links1 : List String)
    (hmiss : cacheHitEntries cache0 = none)
    (hl0 : (env 0).launchOk = true) (hs0 : (env 0).search = .ok links0)
    (hne0 : links0 ≠ []) (hbad0 : invalidIndexFor index links0)
    (hl1 : (env 1).launchOk = true) (hs1 : (env 1).search = .ok links1)
    (hne1 : links1 ≠ []) (hbad1 : invalidIndexFor index links1) :
    (handleRequest cache0 env index).response = .serverError ∧
    (handleRequest cache0 env index).cache = none ∧
    (handleRequest cache0 env index).events
      = [.launch 0, .closed 0, .launch 1, .closed 1] := by
  have r0 := runAttempt_invalidIndex (env 0) index 0 links0 hl0 hs0 hne0 hbad0
  have r1 := runAttempt_invalidIndex (env 1) index 1 links1 hl1 hs1 hne1 hbad1
  have hst1 : nextLoopState env index 0 ⟨[], [], [], 0⟩ =
      ⟨[], links0, [.launch 0, .closed 0], 1⟩ := by
    unfold nextLoopState
    rw [r0]
    rfl
  have hst2 : nextLoopState env index 1 ⟨[], links0, [.launch 0, .closed 0], 1⟩ =
      ⟨[], links1, [.launch 0, .closed 0, .launch 1, .closed 1], 2⟩ := by
    unfold nextLoopState
    rw [r1]
    rfl
  have hloop : scrapeLoopFuel env index 2 0 ⟨[], [], [], 0⟩ =
      .thrown ⟨[], links1, [.launch 0, .closed 0, .launch 1, .closed 1], 2⟩ none := by
    rw [show (2 : Nat) = 1 + 1 from rfl,
      scrapeLoopFuel_step_err env index 1 0 ⟨[], [], [], 0⟩ .invalidIndex rfl
        (by rw [r0])]
    rw [if_neg (by omega), hst1]
    rw [show (1 : Nat) = 0 + 1 from rfl,
      scrapeLoopFuel_step_err env index 0 1 ⟨[], links0, [.launch 0, .closed 0], 1⟩
        .invalidIndex rfl (by rw [r1])]
    rw [if_pos rfl, hst2, r1]
  unfold handleRequest
  rw [hmiss]
  unfold scrapeAndRespond
  rw [hloop]
  simp

/-- Witness for the amended C4 at index `"99"` with three links. -/
theorem invalid_index_retried_witness :
    (handleRequest none envThreeLinks "99").response = .serverError ∧
    (handleRequest none envThreeLinks "99").cache = none ∧
    (handleRequest none envThreeLinks "99").events
      = [.launch 0, .closed 0, .launch 1, .closed 1] :=
  invalid_index_retried none envThreeLinks "99"
    ["https://ahottie.net/albums/a", "https://ahottie.net/albums/b",
      "https://ahottie.net/albums/c"]
    ["https://ahottie.net/albums/a", "https://ahottie.net/albums/b",
      "https://ahottie.net/albums/c"]
    rfl rfl rfl (by decide) (Or.inr ⟨99, by decide, by decide⟩)
    rfl rfl (by decide) (Or.inr ⟨99, by decide, by decide⟩)

/-- C10: whenever the leading decimal digits of the index string parse to
an integer `n` within `[1, linkCount]`, the index is accepted — no
invalid-index error — and gallery link number `n` is the one resolved,
even if the string carries trailing garbage. -/
theorem leading_digits_index_accepted (env : AttemptEnv) (index : String)
    (links : List String) (nextId : Nat) (n : Int)
    (hl : env.launchOk = true) (hs : env.search = .ok links)
    (hparse : parseIntBase10 index = some n) (h1 : 1 ≤ n)
    (h2 : n ≤ (links.length : Int)) :
    (runAttempt env index nextId).error ≠ some .invalidIndex ∧
    (runAttempt env index nextId).selectedLink = links.get? (n - 1).toNat := by
  have h0 : ¬ links.length = 0 := by
    intro h
    rw [h] at h2
    omega
  have hcond : ¬ (n < 1 ∨ n > (links.length : Int)) := by omega
  unfold runAttempt attemptBody
  by_cases ht : (collectGallery env.pages 5).threw
  · simp [hl, hs, h0, hparse, hcond, ht, attemptCatch]
  · simp [hl, hs, h0, hparse, hcond, ht, attemptCatch]

/-- Witness for C10: index `"2abc"` with three links found is silently
treated as 2 and resolves gallery link #2. -/
theorem leading_digits_index_accepted_witness :
    (runAttempt (envThreeLinks 0) "2abc" 0).error ≠ some .invalidIndex ∧
    (runAttempt (envThreeLinks 0) "2abc" 0).selectedLink
      = ["https://ahottie.net/albums/a", "https://ahottie.net/albums/b",
          "https://ahottie.net/albums/c"].get? ((2 : Int) - 1).toNat :=
  leading_digits_index_accepted (envThreeLinks 0) "2abc"
    ["https://ahottie.net/albums/a", "https://ahottie.net/albums/b",
      "https://ahottie.net/albums/c"]
    0 2 rfl rfl (by decide) (by decide) (by decide)

/-! ### Browser session discipline (C5) -/

/-- The canonical balanced trace: sessions `0..k-1`, each launched and
then closed exactly once, in order. -/
def sessionTrace (k : Nat) : List BEvent :=
  ((List.range k).map (fun i => [BEvent.launch i, BEvent.closed i])).flatten

theorem sessionTrace_succ (k : Nat) :
    sessionTrace (k + 1) = sessionTrace k ++ [.launch k, .closed k] := by
  unfold sessionTrace
  rw [List.range_succ, List.map_append, List.flatten_append]
  simp

/-- Every attempt either launches no session (the launch itself failed)
and leaves the session counter unchanged, or launches exactly one session
and closes it before the attempt ends; in both cases the `browser`
variable is null when the attempt (including its catch clause) is over. -/
theorem runAttempt_events (env : AttemptEnv) (index : String) (nextId : Nat) :
    ((runAttempt env index nextId).events = []
        ∧ (runAttempt env index nextId).nextId = nextId
        ∧ (runAttempt env index nextId).browserVar = none)
    ∨ ((runAttempt env index nextId).events = [.launch nextId, .closed nextId]
        ∧ (runAttempt env index nextId).nextId = nextId + 1
        ∧ (runAttempt env index nextId).browserVar = none) := by
  unfold runAttempt attemptBody
  by_cases hl : env.launchOk = false
  · left
    simp [hl, attemptCatch]
  · rw [if_neg hl]
    right
    cases env.search with
    | navError => simp [attemptCatch]
    | notFound => simp [attemptCatch]
    | ok links =>
      by_cases h0 : links.length = 0
      · simp [h0, attemptCatch]
      · cases hp : parseIntBase10 index with
        | none => simp [h0, attemptCatch]
        | some n =>
          by_cases hb : n < 1 ∨ n > (links.length : Int)
          · simp [h0, hb, attemptCatch]
          · by_cases ht : (collectGallery env.pages 5).threw
            · simp [h0, hb, ht, attemptCatch]
            · simp [h0, hb, ht, attemptCatch]

/-- Loop invariant: starting from a balanced trace whose session counter
matches, the retry loop ends (normally or by rethrow) with a balanced
trace, and on a rethrow the `browser` variable is already null. -/
theorem scrapeLoopFuel_trace (env : Nat → AttemptEnv) (index : String) :
    ∀ (fuel attemptsMade : Nat) (st : LoopState),
      st.events = sessionTrace st.nextId →
      (∀ st', scrapeLoopFuel env index fuel attemptsMade st = .finished st' →
        st'.events = sessionTrace st'.nextId) ∧
      (∀ st' bvar, scrapeLoopFuel env index fuel attemptsMade st = .thrown st' bvar →
        st'.events = sessionTrace st'.nextId ∧ bvar = none) := by
  intro fuel
  induction fuel with
  | zero =>
    intro attemptsMade st hev
    constructor
    · intro st' hfin
      rw [scrapeLoopFuel] at hfin
      cases hfin
      exact hev
    · intro st' bvar hthr
      rw [scrapeLoopFuel] at hthr
      cases hthr
  | succ fuel ih =>
    intro attemptsMade st hev
    by_cases hempty : st.imageData.length = 0
    · have hnext : (nextLoopState env index attemptsMade st).events
          = sessionTrace (nextLoopState env index attemptsMade st).nextId := by
        unfold nextLoopState
        dsimp only
        rcases runAttempt_events (env attemptsMade) index st.nextId with
          ⟨he, hn, _⟩ | ⟨he, hn, _⟩
        · rw [he, hn, List.append_nil]
          exact hev
        · rw [he, hn, hev, sessionTrace_succ]
      cases herr : (runAttempt (env attemptsMade) index st.nextId).error with
      | none =>
        rw [scrapeLoopFuel_step_ok env index fuel attemptsMade st hempty herr]
        exact ih (attemptsMade + 1) _ hnext
      | some e =>
        rw [scrapeLoopFuel_step_err env index fuel attemptsMade st e hempty herr]
        by_cases hf : fuel = 0
        · rw [if_pos hf]
          constructor
          · intro st' h
            cases h
          · intro st' bvar h
            cases h
            refine ⟨hnext, ?_⟩
            rcases runAttempt_events (env attemptsMade) index st.nextId with
              ⟨_, _, hb⟩ | ⟨_, _, hb⟩ <;> exact hb
        · rw [if_neg hf]
          exact ih (attemptsMade + 1) _ hnext
    · rw [scrapeLoopFuel_step_stop env index fuel attemptsMade st hempty]
      constructor
      · intro st' h
        cases h
        exact hev
      · intro st' bvar h
        cases h

theorem sessionTrace_count (k i : Nat) :
    (sessionTrace k).count (BEvent.launch i) = (if i < k then 1 else 0) ∧
    (sessionTrace k).count (BEvent.closed i) = (if i < k then 1 else 0) := by
  induction k with
  | zero => simp [sessionTrace]
  | succ k ih =>
    have hc1 : List.count (BEvent.launch i) [BEvent.launch k, BEvent.closed k]
        = if i = k then 1 else 0 := by
      by_cases hik : i = k
      · subst hik
        simp
      · simp [List.count_cons, Ne.symm hik, hik]
    have hc2 : List.count (BEvent.closed i) [BEvent.launch k, BEvent.closed k]
        = if i = k then 1 else 0 := by
      by_cases hik : i = k
      · subst hik
        simp
      · simp [List.count_cons, Ne.symm hik, hik]
    rw [sessionTrace_succ, List.count_append, List.count_append, ih.1, ih.2, hc1, hc2]
    constructor <;> (split_ifs <;> omega)

/-- C5: on every request, the browser event trace is a sequence of
launch/close pairs — session 0, then session 1, ... — so every session
launched during an attempt is closed exactly once (each launch event has
exactly one matching close, no session is left open, and no session is
closed twice), on success paths, caught per-attempt errors, and the
rethrown final-attempt error alike. -/
theorem browser_sessions_balanced (cache0 : Option (List CatalogEntry))
    (env : Nat → AttemptEnv) (index : String) :
    (∃ k, (handleRequest cache0 env index).events = sessionTrace k) ∧
    ∀ i, (handleRequest cache0 env index).events.count (BEvent.launch i) ≤ 1 ∧
      (handleRequest cache0 env index).events.count (BEvent.closed i)
        = (handleRequest cache0 env index).events.count (BEvent.launch i) := by
  have hkey : ∃ k, (handleRequest cache0 env index).events = sessionTrace k := by
    unfold handleRequest
    cases hcache : cacheHitEntries cache0 with
    | some l =>
      exact ⟨0, rfl⟩
    | none =>
      dsimp only
      unfold scrapeAndRespond
      cases hloop : scrapeLoopFuel env index 2 0 ⟨[], [], [], 0⟩ with
      | finished st =>
        have h := (scrapeLoopFuel_trace env index 2 0 ⟨[], [], [], 0⟩ rfl).1 st hloop
        dsimp only
        by_cases hlen : (removeDuplicateImages st.imageData).length = 0
        · rw [if_pos hlen]
          exact ⟨st.nextId, h⟩
        · rw [if_neg hlen]
          exact ⟨st.nextId, h⟩
      | thrown st bvar =>
        have h := (scrapeLoopFuel_trace env index 2 0 ⟨[], [], [], 0⟩ rfl).2 st bvar hloop
        dsimp only
        rw [h.2]
        exact ⟨st.nextId, by simpa using h.1⟩
  refine ⟨hkey, ?_⟩
  obtain ⟨k, hk⟩ := hkey
  intro i
  rw [hk]
  rcases sessionTrace_count k i with ⟨h1, h2⟩
  rw [h1, h2]
  constructor
  · split <;> omega
  · rfl

end ImageScraper
